import Mathlib

/-!
Shallow embedding of the checkpoint-discovery and policy-mapping core of
`src/multigrid/utils/training_utilis.py`.

Modelling notes:

* Filesystem interaction is abstracted into call-time snapshots.
  `get_checkpoint_dir`'s recursive glob for `**/*.is_checkpoint` is a
  function `glob : String → Except Unit (List MarkerEntry)`; an `Except.error`
  value stands for any exception raised while constructing the `Path`,
  expanding the user home, globbing, or calling `os.path.getmtime` (all of
  which the Python `try`/`except` swallows).  An `Except.ok ms` value is the
  list of marker entries in glob traversal order, each carrying the parent
  directory of the marker file and its modification time.
* Python's `sorted` is a stable sort; it is modelled by `List.insertionSort`,
  which is also stable, so for the same total preorder both produce the same
  output list.
* `sorted(checkpoints, key=os.path.getmtime)[-1]` on an empty list raises
  `IndexError`, which the bare `except:` swallows and the function falls off
  its end returning `None`; this is modelled by `List.getLast?` returning
  `none`.  (The guard `if checkpoints:` in the Python is always true because
  a generator object is truthy; the empty case is reached only through the
  `IndexError` path.  Either way the observable result is `None`.)
* For `get_policy_mapping_fn` the argument `checkpoint_dir` is `None`, a
  `str`, or a `Path`.  `None / "policies"` and `str / "policies"` raise
  `TypeError`; for a `Path`, iterating `(checkpoint_dir / "policies")` either
  raises (missing/unreadable directory) or yields directory entries, each a
  name plus an `is_dir` flag.  This is the type `CheckpointDirArg`.
* Python functions that can raise are embedded as functions into `Option`:
  `none` means the call raises.  The returned mapping closure raises
  `ZeroDivisionError` (`agent_id % 0`) exactly when the captured policy list
  is empty.
* Sorting the `Path` objects of the immediate children of the `policies`
  directory orders them by their final component, since all of them share
  the same parent prefix; so the embedding sorts the name strings with the
  code-point lexicographic order on `String`, which is Python's string
  comparison.
* Extra `*args, **kwargs` parameters of the Python mapping functions are
  ignored by their bodies and are elided in the embedding.
-/

namespace TrainingUtils

/-- One result of the recursive glob `search_dir/**/*.is_checkpoint`:
the parent directory of the marker file (as a list of path components) and
the marker's filesystem modification time. -/
structure MarkerEntry where
  parent : List String
  mtime : Nat
deriving DecidableEq, Repr

/-- Recency order on marker entries: the key function `os.path.getmtime`
used by `sorted(checkpoints, key=os.path.getmtime)`. -/
def mtimeLe (a b : MarkerEntry) : Prop := a.mtime ≤ b.mtime

instance : DecidableRel mtimeLe := fun a b => Nat.decLe a.mtime b.mtime

instance : IsTotal MarkerEntry mtimeLe := ⟨fun a b => Nat.le_total a.mtime b.mtime⟩

instance : IsTrans MarkerEntry mtimeLe := ⟨fun _ _ _ => Nat.le_trans⟩

/-- Embedding of `get_checkpoint_dir(search_dir)`.

`search_dir = none` is Python `None`: `Path(None)` raises `TypeError`,
caught by the bare `except:`, and the function returns `None`.
Otherwise the glob snapshot is consulted: on any filesystem exception the
`except:` yields `None`; on a successful glob the markers are stably sorted
by modification time and the parent of the last one is returned (`IndexError`
on an empty list again yields `None`). -/
def get_checkpoint_dir (glob : String → Except Unit (List MarkerEntry)) :
    Option String → Option (List String)
  | none => none
  | some root =>
    match glob root with
    | .error _ => none
    | .ok checkpoints =>
      ((checkpoints.insertionSort mtimeLe).getLast?).map MarkerEntry.parent

/-- One immediate child of the `policies` directory as seen by
`Path.iterdir`: its final name component and whether it is a directory. -/
structure DirEntry where
  name : String
  is_dir : Bool
deriving DecidableEq, Repr

/-- The `checkpoint_dir` argument of `get_policy_mapping_fn` together with
the call-time filesystem snapshot it gives access to. -/
inductive CheckpointDirArg where
  /-- Python `None`: `None / "policies"` raises `TypeError`. -/
  | noneArg : CheckpointDirArg
  /-- A `str` path: `str.__truediv__` does not exist, so `checkpoint_dir /
  "policies"` raises `TypeError`. -/
  | strArg (s : String) : CheckpointDirArg
  /-- A `Path`: iterating `(checkpoint_dir / "policies")` either raises
  (`error`) or yields the listed entries in directory order (`ok`). -/
  | pathArg (r : Except Unit (List DirEntry)) : CheckpointDirArg
deriving Repr

/-- Outcome of evaluating `(checkpoint_dir / "policies").iterdir()` for a
given argument/snapshot. -/
def iterPolicies : CheckpointDirArg → Except Unit (List DirEntry)
  | .noneArg => .error ()
  | .strArg _ => .error ()
  | .pathArg r => r

/-- Code-point lexicographic comparison of character lists, exactly Python's
string comparison: shorter prefix first, otherwise decided by the first
differing character. -/
def charListLe : List Char → List Char → Bool
  | [], _ => true
  | _ :: _, [] => false
  | a :: as, b :: bs => if a < b then true else if b < a then false else charListLe as bs

/-- Python's `<=` on strings: code-point lexicographic order on the
underlying character sequences. -/
def strLe (a b : String) : Prop := charListLe a.data b.data = true

instance : DecidableRel strLe := fun a b => instDecidableEqBool (charListLe a.data b.data) true

/-- The executable comparison agrees with the (non-computing in the kernel)
lexicographic order on character lists: `charListLe as bs` holds exactly when
`bs` is not lexicographically smaller than `as`. -/
theorem charListLe_iff_not_lex :
    ∀ as bs : List Char, charListLe as bs = true ↔ ¬ List.Lex (· < ·) bs as
  | [], bs => iff_of_true rfl (List.Lex.not_nil_right _ _)
  | a :: as, [] => by
    simp only [charListLe]
    exact iff_of_false (by simp) (fun h => h List.Lex.nil)
  | a :: as, b :: bs => by
    rcases lt_trichotomy a b with hab | hab | hab
    · refine iff_of_true (by simp [charListLe, hab]) (fun h => ?_)
      cases h with
      | rel h => exact absurd hab (lt_asymm h)
      | cons h => exact absurd hab (by simp_all)
    · subst hab
      have : charListLe (a :: as) (a :: bs) = charListLe as bs := by
        simp [charListLe]
      rw [this, charListLe_iff_not_lex as bs]
      exact (not_congr (List.Lex.cons_iff (r := (· < ·)))).symm
    · refine iff_of_false ?_ (fun h => h (List.Lex.rel hab))
      simp [charListLe, hab, lt_asymm hab]

/-- The executable comparison agrees with the lexicographic linear order on
`String`: `strLe` is the standard `≤`. -/
theorem strLe_iff_le (a b : String) : strLe a b ↔ a ≤ b := by
  rw [String.le_iff_toList_le, ← not_lt]
  exact charListLe_iff_not_lex a.data b.data

instance : IsTotal String strLe :=
  ⟨fun a b => by
    rcases le_total a b with h | h
    · exact Or.inl ((strLe_iff_le a b).mpr h)
    · exact Or.inr ((strLe_iff_le b a).mpr h)⟩

instance : IsTrans String strLe :=
  ⟨fun a b c hab hbc =>
    (strLe_iff_le a c).mpr (le_trans ((strLe_iff_le a b).mp hab) ((strLe_iff_le b c).mp hbc))⟩

/-- Embedding of
`sorted([path for path in (checkpoint_dir / "policies").iterdir() if path.is_dir()])`
followed by taking `.name` of each element: keep only directory entries and
stably sort their names in code-point lexicographic order. -/
def policyIDs (entries : List DirEntry) : List String :=
  ((entries.filter (fun e => e.is_dir)).map (fun e => e.name)).insertionSort strLe

/-- Embedding of the closure
`def policy_mapping_fn(agent_id, *args, **kwargs): return policies[agent_id % len(policies)].name`.
When the captured `policies` list is empty, `agent_id % 0` raises
`ZeroDivisionError`, modelled by `none`. -/
def closure_fn (policies : List String) (agent_id : Nat) : Option String :=
  if h : 0 < policies.length then
    some (policies.get ⟨agent_id % policies.length, Nat.mod_lt agent_id h⟩)
  else none

/-- Embedding of the fallback `lambda agent_id, *args, **kwargs: f"policy_{agent_id}"`
returned from the `except:` branch of `get_policy_mapping_fn`.  It never
raises, hence always `some`. -/
def fallback_fn (agent_id : Nat) : Option String :=
  some ("policy_" ++ toString agent_id)

/-- Whether the diagnostic loop
`for agent_id in range(num_agents): print(..., policy_mapping_fn(agent_id))`
raises: it calls the closure at every `agent_id` in `[0, num_agents)`, so it
raises exactly when one of those calls does. -/
def diagnostic_raises (policies : List String) (num_agents : Nat) : Bool :=
  (List.range num_agents).any (fun a => (closure_fn policies a).isNone)

/-- Embedding of `get_policy_mapping_fn(checkpoint_dir, num_agents)`.

Inside the `try:` block the policy names are enumerated and sorted and the
closure is built; the diagnostic loop then evaluates the closure for every
`agent_id` in `[0, num_agents)`.  If anything up to and including that loop
raises — `TypeError` from `None`/`str` arguments, an `iterdir` failure, or
`ZeroDivisionError` from the closure on an empty policy list — the bare
`except:` returns the fallback lambda instead.  Otherwise the closure itself
is returned. -/
def get_policy_mapping_fn (checkpoint_dir : CheckpointDirArg) (num_agents : Nat) :
    Nat → Option String :=
  match iterPolicies checkpoint_dir with
  | .error _ => fallback_fn
  | .ok entries =>
    let policies := policyIDs entries
    if diagnostic_raises policies num_agents then fallback_fn
    else closure_fn policies

/-- Embedding of the module-level function
`def policy_mapping_fn(agent_id, *args, **kwargs): return f"policy_{agent_id}"`. -/
def policy_mapping_fn (agent_id : Nat) : String :=
  "policy_" ++ toString agent_id

/-! ### Helper lemmas -/

/-- The value reported by `getLast?` is a member of the list. -/
theorem mem_of_getLast? {α : Type} {l : List α} {x : α} (h : l.getLast? = some x) :
    x ∈ l := by
  obtain ⟨hne, rfl⟩ := List.mem_getLast?_eq_getLast h
  exact List.getLast_mem hne

/-- In a list sorted by `r`, every element is the last one or related to it. -/
theorem sorted_getLast_max {α : Type} {r : α → α → Prop} :
    ∀ (l : List α), List.Sorted r l → ∀ x, l.getLast? = some x →
      ∀ y ∈ l, y = x ∨ r y x
  | [], _, x, hx => by simp at hx
  | [a], _, x, hx => by
    intro y hy
    simp only [List.getLast?_singleton, Option.some.injEq] at hx
    simp only [List.mem_singleton] at hy
    exact Or.inl (hy.trans hx)
  | a :: b :: l, hs, x, hx => by
    intro y hy
    rw [List.getLast?_cons_cons] at hx
    rcases List.mem_cons.mp hy with rfl | hy
    · exact Or.inr (List.rel_of_sorted_cons hs x (mem_of_getLast? hx))
    · exact sorted_getLast_max (b :: l) hs.of_cons x hx y hy

/-- When the captured policy list is nonempty the closure never raises and
returns the modular lookup. -/
theorem closure_fn_pos {policies : List String} (h : 0 < policies.length) (i : Nat) :
    closure_fn policies i =
      some (policies.get ⟨i % policies.length, Nat.mod_lt i h⟩) := by
  simp only [closure_fn, dif_pos h]

/-- When the captured policy list is empty the closure raises on every call. -/
theorem closure_fn_nil (i : Nat) : closure_fn [] i = none := rfl

/-- The diagnostic loop cannot raise when at least one policy was found. -/
theorem diagnostic_raises_false {policies : List String} (h : 0 < policies.length)
    (n : Nat) : diagnostic_raises policies n = false := by
  simp only [diagnostic_raises, List.any_eq_false]
  intro a _
  simp [closure_fn_pos h]

/-- With an empty policy list and at least one agent, the diagnostic loop
raises `ZeroDivisionError` on its first iteration. -/
theorem diagnostic_raises_nil {n : Nat} (hn : 0 < n) :
    diagnostic_raises [] n = true := by
  simp only [diagnostic_raises, List.any_eq_true]
  exact ⟨0, List.mem_range.mpr hn, by simp [closure_fn_nil]⟩

/-- If evaluating `(checkpoint_dir / "policies").iterdir()` raises, the
fallback lambda is returned. -/
theorem gpm_of_error {arg : CheckpointDirArg} (h : iterPolicies arg = .error ())
    (n i : Nat) : get_policy_mapping_fn arg n i = fallback_fn i := by
  simp only [get_policy_mapping_fn, h]

/-- On a successful listing with at least one policy subdirectory, the
closure over the sorted policy list is returned. -/
theorem gpm_of_ok_pos {es : List DirEntry} (h : 0 < (policyIDs es).length)
    (n i : Nat) :
    get_policy_mapping_fn (.pathArg (.ok es)) n i = closure_fn (policyIDs es) i := by
  simp only [get_policy_mapping_fn, iterPolicies, diagnostic_raises_false h,
    Bool.false_eq_true, if_false]

/-- On a successful listing with zero policy subdirectories and at least one
agent, the diagnostic loop raises and the fallback lambda is returned. -/
theorem gpm_of_ok_nil {es : List DirEntry} (h : policyIDs es = []) {n : Nat}
    (hn : 0 < n) (i : Nat) :
    get_policy_mapping_fn (.pathArg (.ok es)) n i = fallback_fn i := by
  simp only [get_policy_mapping_fn, iterPolicies, h, diagnostic_raises_nil hn, if_true]

/-! ### Claim theorems -/

/-- C1: for every checkpoint directory whose `policies` subdirectory contains
at least one policy subdirectory, the function returned by
`get_policy_mapping_fn` maps every non-negative `agent_id` to
`PolicyIDs[agent_id mod N]`, where `PolicyIDs` is the sorted sequence of
policy subdirectory names and `N` its length. -/
theorem get_policy_mapping_fn_mod_of_policies (es : List DirEntry)
    (num_agents agent_id : Nat) (h : 0 < (policyIDs es).length) :
    get_policy_mapping_fn (.pathArg (.ok es)) num_agents agent_id =
      some ((policyIDs es).get
        ⟨agent_id % (policyIDs es).length, Nat.mod_lt agent_id h⟩) := by
  rw [gpm_of_ok_pos h, closure_fn_pos h]

/-- Witness for C1: two policy subdirectories, agent 5 gets the sorted list's
entry at index `5 % 2 = 1`. -/
theorem get_policy_mapping_fn_mod_of_policies_witness :
    0 < (policyIDs [⟨"policy_a", true⟩, ⟨"policy_b", true⟩]).length ∧
    get_policy_mapping_fn
      (.pathArg (.ok [⟨"policy_a", true⟩, ⟨"policy_b", true⟩])) 2 5 =
        some "policy_b" := by
  refine ⟨by decide, ?_⟩
  rw [get_policy_mapping_fn_mod_of_policies
    [⟨"policy_a", true⟩, ⟨"policy_b", true⟩] 2 5 (by decide)]
  decide

/-- C2: for every directory tree containing one or more checkpoint marker
entries, `get_checkpoint_dir` returns the parent directory of a marker with
the greatest filesystem modification time (ties broken arbitrarily). -/
theorem get_checkpoint_dir_returns_most_recent
    (glob : String → Except Unit (List MarkerEntry)) (root : String)
    (ms : List MarkerEntry) (hok : glob root = .ok ms) (hne : ms ≠ []) :
    ∃ m, m ∈ ms ∧ get_checkpoint_dir glob (some root) = some m.parent ∧
      ∀ mm ∈ ms, mm.mtime ≤ m.mtime := by
  have hperm := List.perm_insertionSort mtimeLe ms
  have hsne : ms.insertionSort mtimeLe ≠ [] := by
    have : 0 < (ms.insertionSort mtimeLe).length := by
      rw [List.length_insertionSort]
      exact List.length_pos.mpr hne
    exact List.length_pos.mp this
  have hx := List.getLast?_eq_getLast_of_ne_nil hsne
  refine ⟨(ms.insertionSort mtimeLe).getLast hsne, ?_, ?_, ?_⟩
  · exact hperm.mem_iff.mp (mem_of_getLast? hx)
  · simp only [get_checkpoint_dir, hok, hx]
    rfl
  · intro mm hmm
    have hmem : mm ∈ ms.insertionSort mtimeLe := hperm.mem_iff.mpr hmm
    rcases sorted_getLast_max (ms.insertionSort mtimeLe)
        (List.sorted_insertionSort mtimeLe ms) _ hx mm hmem with h | h
    · exact h ▸ Nat.le_refl _
    · exact h

/-- Witness for C2: on a snapshot with markers of modification times 1 and 2,
the theorem produces a marker of maximal modification time. -/
theorem get_checkpoint_dir_returns_most_recent_witness :
    ∃ m, m ∈ [MarkerEntry.mk ["a", "ckpt1"] 1, MarkerEntry.mk ["b", "ckpt2"] 2] ∧
      get_checkpoint_dir
        (fun _ => .ok [MarkerEntry.mk ["a", "ckpt1"] 1, MarkerEntry.mk ["b", "ckpt2"] 2])
        (some "root") = some m.parent ∧
      ∀ mm ∈ [MarkerEntry.mk ["a", "ckpt1"] 1, MarkerEntry.mk ["b", "ckpt2"] 2],
        mm.mtime ≤ m.mtime :=
  get_checkpoint_dir_returns_most_recent _ "root"
    [MarkerEntry.mk ["a", "ckpt1"] 1, MarkerEntry.mk ["b", "ckpt2"] 2] rfl (by decide)

/-- C3: for an absent checkpoint directory (`None`) or an unusable checkpoint
path, and for any `num_agents`, `get_policy_mapping_fn` returns the fallback
with `mapping(i) = "policy_" ++ i` for every non-negative `i`. -/
theorem get_policy_mapping_fn_fallback_of_absent (arg : CheckpointDirArg)
    (num_agents i : Nat)
    (h : arg = .noneArg ∨ iterPolicies arg = .error ()) :
    get_policy_mapping_fn arg num_agents i = some ("policy_" ++ toString i) := by
  rcases h with rfl | h
  · rfl
  · rw [gpm_of_error h]
    rfl

/-- Witness for C3: a `None` checkpoint directory with 3 agents maps agent 5
to `"policy_5"`. -/
theorem get_policy_mapping_fn_fallback_of_absent_witness :
    get_policy_mapping_fn .noneArg 3 5 = some "policy_5" :=
  (get_policy_mapping_fn_fallback_of_absent .noneArg 3 5 (Or.inl rfl)).trans (by decide)

/-- C4: for zero markers found, an absent (`None`) root, or any filesystem
error while globbing (non-existent path, malformed path, permission error),
`get_checkpoint_dir` returns `none`; being a total function into `Option`,
it never raises to the caller. -/
theorem get_checkpoint_dir_none_of_no_marker
    (glob : String → Except Unit (List MarkerEntry)) (root : Option String)
    (h : root = none ∨
      ∃ r, root = some r ∧ (glob r = .error () ∨ glob r = .ok [])) :
    get_checkpoint_dir glob root = none := by
  rcases h with rfl | ⟨r, rfl, h | h⟩
  · rfl
  · simp only [get_checkpoint_dir, h]
  · simp only [get_checkpoint_dir, h]
    rfl

/-- Witness for C4: the absent root, a failing glob, and an empty glob all
yield `none`. -/
theorem get_checkpoint_dir_none_of_no_marker_witness :
    get_checkpoint_dir (fun _ => .ok []) none = none ∧
    get_checkpoint_dir (fun _ => .error ()) (some "bad") = none ∧
    get_checkpoint_dir (fun _ => .ok []) (some "empty") = none :=
  ⟨get_checkpoint_dir_none_of_no_marker _ none (Or.inl rfl),
   get_checkpoint_dir_none_of_no_marker _ (some "bad") (Or.inr ⟨"bad", rfl, Or.inl rfl⟩),
   get_checkpoint_dir_none_of_no_marker _ (some "empty") (Or.inr ⟨"empty", rfl, Or.inr rfl⟩)⟩

/-- C5: when the `policies` subdirectory is missing or unreadable (the
listing raises) or contains zero policy subdirectories, and `num_agents` is
positive, `get_policy_mapping_fn` returns the fallback
`agent_id ↦ "policy_" ++ agent_id` without raising. -/
theorem get_policy_mapping_fn_fallback_of_empty (arg : CheckpointDirArg)
    (num_agents : Nat) (hn : 0 < num_agents) (i : Nat)
    (h : iterPolicies arg = .error () ∨
      ∃ es, iterPolicies arg = .ok es ∧ policyIDs es = []) :
    get_policy_mapping_fn arg num_agents i = some ("policy_" ++ toString i) := by
  rcases h with h | ⟨es, hes, hnil⟩
  · rw [gpm_of_error h]
    rfl
  · cases arg with
    | noneArg => simp [iterPolicies] at hes
    | strArg s => simp [iterPolicies] at hes
    | pathArg r =>
      simp only [iterPolicies] at hes
      rw [hes, gpm_of_ok_nil hnil hn]
      rfl

/-- Witness for C5: a `policies` directory whose only entry is a plain file
(not a directory) has zero policy subdirectories; with 2 agents, agent 7 is
mapped to `"policy_7"`. -/
theorem get_policy_mapping_fn_fallback_of_empty_witness :
    0 < 2 ∧
    get_policy_mapping_fn (.pathArg (.ok [⟨"events.out", false⟩])) 2 7 =
      some "policy_7" :=
  ⟨Nat.zero_lt_succ 1,
   (get_policy_mapping_fn_fallback_of_empty (.pathArg (.ok [⟨"events.out", false⟩]))
      2 (Nat.zero_lt_succ 1) 7
      (Or.inr ⟨[⟨"events.out", false⟩], rfl, by decide⟩)).trans (by decide)⟩

/-- C6: for every checkpoint directory argument and every positive
`num_agents`, the function returned by `get_policy_mapping_fn` is total over
all non-negative `agent_id` (it always returns `some`, i.e. never raises),
including `agent_id ≥ num_agents`. -/
theorem get_policy_mapping_fn_total_of_pos_agents (arg : CheckpointDirArg)
    (num_agents : Nat) (hn : 0 < num_agents) (agent_id : Nat) :
    (get_policy_mapping_fn arg num_agents agent_id).isSome = true := by
  cases harg : iterPolicies arg with
  | error u =>
    cases u
    rw [gpm_of_error harg]
    rfl
  | ok es =>
    cases arg with
    | noneArg => simp [iterPolicies] at harg
    | strArg s => simp [iterPolicies] at harg
    | pathArg r =>
      simp only [iterPolicies] at harg
      subst harg
      by_cases h : 0 < (policyIDs es).length
      · rw [gpm_of_ok_pos h, closure_fn_pos h]
        rfl
      · have hnil : policyIDs es = [] :=
          List.length_eq_zero.mp (Nat.eq_zero_of_not_pos h)
        rw [gpm_of_ok_nil hnil hn]
        rfl

/-- Witness for C6: with one policy subdirectory and one agent, the returned
function still answers for `agent_id = 100`, far beyond `num_agents`. -/
theorem get_policy_mapping_fn_total_of_pos_agents_witness :
    (get_policy_mapping_fn (.pathArg (.ok [⟨"policy_0", true⟩])) 1 100).isSome = true :=
  get_policy_mapping_fn_total_of_pos_agents
    (.pathArg (.ok [⟨"policy_0", true⟩])) 1 (Nat.zero_lt_succ 0) 100

/-- C7: the enumerated policy subdirectory names are sorted into the
lexicographic order on strings before the mapping is built; in the scenario
with subdirectories `policy_b` and `policy_a` the sorted order is
`[policy_a, policy_b]`, and the mapping sends 0 to `policy_a`, 1 to
`policy_b`, and 2 to `policy_a`. -/
theorem policyIDs_sorted_lex_and_scenario :
    (∀ es : List DirEntry, List.Sorted (fun a b : String => a ≤ b) (policyIDs es)) ∧
    policyIDs [⟨"policy_b", true⟩, ⟨"policy_a", true⟩] = ["policy_a", "policy_b"] ∧
    get_policy_mapping_fn
      (.pathArg (.ok [⟨"policy_b", true⟩, ⟨"policy_a", true⟩])) 3 0 = some "policy_a" ∧
    get_policy_mapping_fn
      (.pathArg (.ok [⟨"policy_b", true⟩, ⟨"policy_a", true⟩])) 3 1 = some "policy_b" ∧
    get_policy_mapping_fn
      (.pathArg (.ok [⟨"policy_b", true⟩, ⟨"policy_a", true⟩])) 3 2 = some "policy_a" := by
  refine ⟨fun es => ?_, by decide, by decide, by decide, by decide⟩
  exact List.Pairwise.imp (fun hab => (strLe_iff_le _ _).mp hab)
    (List.sorted_insertionSort strLe _)

/-- C8: with the call-time filesystem snapshots and arguments unchanged
between two calls, `get_checkpoint_dir` yields identical results and the
functions returned by `get_policy_mapping_fn` agree on every agent id: both
operations are deterministic in their inputs. -/
theorem get_functions_deterministic
    (glob glob2 : String → Except Unit (List MarkerEntry))
    (root root2 : Option String) (arg arg2 : CheckpointDirArg)
    (num_agents num_agents2 agent_id : Nat)
    (hg : glob = glob2) (hr : root = root2) (ha : arg = arg2)
    (hn : num_agents = num_agents2) :
    get_checkpoint_dir glob root = get_checkpoint_dir glob2 root2 ∧
    get_policy_mapping_fn arg num_agents agent_id =
      get_policy_mapping_fn arg2 num_agents2 agent_id := by
  subst hg
  subst hr
  subst ha
  subst hn
  exact ⟨rfl, rfl⟩

/-- Witness for C8: two calls on the same snapshot agree. -/
theorem get_functions_deterministic_witness :
    get_checkpoint_dir (fun _ => .ok [MarkerEntry.mk ["c"] 3]) (some "r") =
      get_checkpoint_dir (fun _ => .ok [MarkerEntry.mk ["c"] 3]) (some "r") ∧
    get_policy_mapping_fn (.pathArg (.ok [⟨"policy_a", true⟩])) 2 1 =
      get_policy_mapping_fn (.pathArg (.ok [⟨"policy_a", true⟩])) 2 1 :=
  get_functions_deterministic _ _ (some "r") (some "r")
    (.pathArg (.ok [⟨"policy_a", true⟩])) (.pathArg (.ok [⟨"policy_a", true⟩]))
    2 2 1 rfl rfl rfl rfl

/-- C9: the fallback lambda returned on the error path of
`get_policy_mapping_fn` is extensionally equal to the module-level function
`policy_mapping_fn`: both return `"policy_" ++ agent_id` for every agent id. -/
theorem fallback_matches_module_policy_mapping_fn :
    (∀ i, fallback_fn i = some (policy_mapping_fn i)) ∧
    (∀ num_agents i,
      get_policy_mapping_fn .noneArg num_agents i = some (policy_mapping_fn i)) :=
  ⟨fun _ => rfl, fun _ _ => rfl⟩

/-- C10: when the `policies` subdirectory exists but holds zero policy
subdirectories, the fall-through to the fallback happens only because the
diagnostic loop over `range(num_agents)` evaluates the closure and raises;
with `num_agents = 0` the loop is empty (it cannot raise), so the closure
over the empty policy list is returned and raises (`none`) on every agent
id, while any positive `num_agents` still reaches the fallback. -/
theorem empty_policies_closure_escapes_when_zero_agents (es : List DirEntry)
    (h : policyIDs es = []) :
    diagnostic_raises (policyIDs es) 0 = false ∧
    (∀ i, get_policy_mapping_fn (.pathArg (.ok es)) 0 i = none) ∧
    (∀ n, 0 < n → ∀ i,
      get_policy_mapping_fn (.pathArg (.ok es)) n i = fallback_fn i) := by
  refine ⟨rfl, fun i => ?_, fun n hn i => gpm_of_ok_nil h hn i⟩
  have h0 : diagnostic_raises (policyIDs es) 0 = false := rfl
  simp only [get_policy_mapping_fn, iterPolicies, h0, Bool.false_eq_true, if_false, h]
  exact closure_fn_nil i

/-- Witness for C10: an existing `policies` directory listing only a plain
file yields zero policy subdirectories; with zero agents the returned
function raises (`none`) at agent id 4. -/
theorem empty_policies_closure_escapes_when_zero_agents_witness :
    get_policy_mapping_fn (.pathArg (.ok [⟨"events.out", false⟩])) 0 4 = none :=
  (empty_policies_closure_escapes_when_zero_agents [⟨"events.out", false⟩]
    (by decide)).2.1 4

end TrainingUtils
